import Mathlib

/-!
Shallow embedding of the payment-lifecycle and check-in core of the
passiyo-be event-management backend, together with proofs settling the
claims of its specification.

Sources embedded:
* `utils/qr.util.js` — QR token codec (`verifyQRCode`, payload builders);
* `services/payment.service.js` — gateway adapter and reconciliation
  (`verifyPayment`, `processSuccessfulPayment`, `refundPayment`);
* `controllers/payment.controller.js` — `handleWebhook`,
  `refundPaymentController`;
* `controllers/scan.controller.js` — `scanQRCode`, `manualCheckIn`;
* `controllers/attendee.controller.js` — `checkInAttendeeController`;
* `models/attendee.model.js` — row updates (`updateAttendee`,
  `checkInAttendee`).

Modelling conventions: the Supabase `payments`/`attendees` tables are lists
of rows; an `update(...).eq(col, v)` is a map that rewrites every matching
row; `.select().single()` is a lookup that succeeds only when exactly one
row matches.  External collaborators (HMAC, gateway fetch/refund, JSON
parsing) are explicit functional parameters.  JavaScript truthiness of the
dynamic payload fields is modelled explicitly (`none` and the empty string
are falsy for strings, `none` and `0` for numeric timestamps).  Timestamps
are integer milliseconds.
-/

namespace Passiyo

/-! ## QR Token Codec (utils/qr.util.js) -/

/-- A QR payload as seen after `JSON.parse` in `verifyQRCode`: a dynamic JS
object in which every field may be absent. -/
structure QRPayload where
  type : Option String
  attendeeId : Option String
  eventId : Option String
  timestamp : Option Int
  code : Option String
deriving Repr, DecidableEq

/-- JS truthiness of an optional string field (`undefined` and `""` are falsy). -/
def truthyStr : Option String → Bool
  | none => false
  | some s => !s.isEmpty

/-- JS truthiness of an optional numeric field (`undefined` and `0` are falsy). -/
def truthyInt : Option Int → Bool
  | none => false
  | some t => t != 0

/-- Result of `verifyQRCode`: `{isValid:true, ...data}` or `{isValid:false, error}`.
The source never throws for invalid input: both thrown errors inside the
`try` block are caught and turned into the tagged `invalid` shape. -/
inductive QRVerifyResult where
  | valid : QRPayload → QRVerifyResult
  | invalid : String → QRVerifyResult
deriving Repr, DecidableEq

/-- `maxAge` in `verifyQRCode`: 24 hours in milliseconds. -/
def qrMaxAge : Int := 24 * 60 * 60 * 1000

/-- `verifyQRCode(qrData)` from qr.util.js.  The JSON.parse outcome is the
`parsed` argument: `Except.error msg` is a parse exception carrying the
parser's message (the catch block returns `error.message || 'Invalid QR code'`);
`Except.ok data` is the parsed object.  `now` is `Date.now()`. -/
def verifyQRCode (parsed : Except String QRPayload) (now : Int) : QRVerifyResult :=
  match parsed with
  | Except.error msg =>
      QRVerifyResult.invalid (if msg.isEmpty then "Invalid QR code" else msg)
  | Except.ok data =>
      if !(truthyStr data.attendeeId && truthyStr data.eventId && truthyInt data.timestamp) then
        QRVerifyResult.invalid "Invalid QR code data"
      else if now - data.timestamp.getD 0 > qrMaxAge then
        QRVerifyResult.invalid "QR code has expired"
      else
        QRVerifyResult.valid data

/-- The payload built by `generateAttendeeQRCode` before JSON serialization:
`{type:'ticket', attendeeId, eventId, timestamp, ...(code when truthy)}`. -/
def attendeeQRPayload (attendeeId eventId verificationCode : String) (now : Int) : QRPayload :=
  { type := some "ticket"
    attendeeId := some attendeeId
    eventId := some eventId
    timestamp := some now
    code := if verificationCode.isEmpty then none else some verificationCode }

/-- The payload built by `generateCheckInQRCode` before JSON serialization:
`{type:'checkin', code, eventId, timestamp}` — it carries no `attendeeId`.
JSON serialization of such a flat object round-trips through `JSON.parse`,
so applying the verifier to the serialized token is applying it to this
payload. -/
def checkInQRPayload (checkInCode eventId : String) (now : Int) : QRPayload :=
  { type := some "checkin"
    attendeeId := none
    eventId := some eventId
    timestamp := some now
    code := some checkInCode }

/-- Claim C7: for every QR payload carrying the required fields, decode
rejects it as expired exactly when `now - timestamp` exceeds 24 hours; a
payload aged 25 hours yields the expired error and one aged 23 hours is
accepted as valid. -/
theorem verifyQRCode_expiry_window (p : QRPayload) (now ts : Int)
    (hA : truthyStr p.attendeeId = true) (hE : truthyStr p.eventId = true)
    (hT : p.timestamp = some ts) (hTz : ts ≠ 0) :
    (now - ts = 25 * (60 * 60 * 1000) →
       verifyQRCode (Except.ok p) now = QRVerifyResult.invalid "QR code has expired") ∧
    (now - ts = 23 * (60 * 60 * 1000) →
       verifyQRCode (Except.ok p) now = QRVerifyResult.valid p) ∧
    (verifyQRCode (Except.ok p) now = QRVerifyResult.invalid "QR code has expired" ↔
       now - ts > 24 * (60 * 60 * 1000)) := by
  have h1 : (truthyStr p.attendeeId && truthyStr p.eventId && truthyInt p.timestamp) = true := by
    rw [hA, hE, hT]
    simp [truthyInt, hTz]
  have h2 : (truthyStr p.attendeeId && truthyStr p.eventId && truthyInt (some ts)) = true := by
    rw [← hT]; exact h1
  have hres : verifyQRCode (Except.ok p) now =
      if now - ts > qrMaxAge then QRVerifyResult.invalid "QR code has expired"
      else QRVerifyResult.valid p := by
    simp only [verifyQRCode, hT, Option.getD_some, h2, Bool.not_true, Bool.false_eq_true,
      if_false]
  have hmax : qrMaxAge = 24 * (60 * 60 * 1000) := by norm_num [qrMaxAge]
  refine ⟨?_, ?_, ?_⟩
  · intro h25
    have hc : now - ts > qrMaxAge := by rw [h25, hmax]; norm_num
    rw [hres, if_pos hc]
  · intro h23
    have hc : ¬ (now - ts > qrMaxAge) := by rw [h23, hmax]; norm_num
    rw [hres, if_neg hc]
  · rw [hres, hmax]
    by_cases hgt : now - ts > 24 * (60 * 60 * 1000)
    · rw [if_pos hgt]
      exact iff_of_true rfl hgt
    · rw [if_neg hgt]
      exact iff_of_false (fun hcon => QRVerifyResult.noConfusion hcon) hgt

/-- Witness for C7: a ticket payload stamped at t=1000 and verified 23 hours
later is accepted as valid. -/
theorem verifyQRCode_expiry_window_witness :
    verifyQRCode (Except.ok (attendeeQRPayload "a1" "e1" "" 1000)) (1000 + 23 * (60 * 60 * 1000))
      = QRVerifyResult.valid (attendeeQRPayload "a1" "e1" "" 1000) :=
  (verifyQRCode_expiry_window (attendeeQRPayload "a1" "e1" "" 1000)
    (1000 + 23 * (60 * 60 * 1000)) 1000 (by decide) (by decide) rfl (by decide)).2.1
    (by norm_num)

/-- Claim C8: decode is a total function into a tagged result — a parse
failure or a payload missing a required field yields the invalid tag, an
expired payload yields the expired tag, every input yields either a valid
or an invalid tagged value, and the bad-data and expired error messages
are distinct, so the caller separates the cases without exceptions. -/
theorem verifyQRCode_total_tagged :
    (∀ msg now, verifyQRCode (Except.error msg) now
        = QRVerifyResult.invalid (if msg.isEmpty then "Invalid QR code" else msg)) ∧
    (∀ p now, (truthyStr p.attendeeId && truthyStr p.eventId && truthyInt p.timestamp) = false →
        verifyQRCode (Except.ok p) now = QRVerifyResult.invalid "Invalid QR code data") ∧
    (∀ p now ts, p.timestamp = some ts →
        (truthyStr p.attendeeId && truthyStr p.eventId && truthyInt p.timestamp) = true →
        now - ts > qrMaxAge →
        verifyQRCode (Except.ok p) now = QRVerifyResult.invalid "QR code has expired") ∧
    (∀ parsed now, (∃ q, verifyQRCode parsed now = QRVerifyResult.valid q) ∨
        (∃ m, verifyQRCode parsed now = QRVerifyResult.invalid m)) ∧
    ("Invalid QR code data" : String) ≠ "QR code has expired" := by
  refine ⟨?_, ?_, ?_, ?_, by decide⟩
  · intro msg now
    rfl
  · intro p now h
    simp [verifyQRCode, h]
  · intro p now ts hts h hgt
    have h2 : (truthyStr p.attendeeId && truthyStr p.eventId && truthyInt (some ts)) = true := by
      rw [← hts]; exact h
    simp only [verifyQRCode, hts, Option.getD_some, h2, Bool.not_true, Bool.false_eq_true,
      if_false]
    rw [if_pos hgt]
  · intro parsed now
    cases parsed with
    | error msg => exact Or.inr ⟨_, rfl⟩
    | ok p =>
      by_cases h : (truthyStr p.attendeeId && truthyStr p.eventId && truthyInt p.timestamp) = true
      · by_cases h2 : now - p.timestamp.getD 0 > qrMaxAge
        · exact Or.inr ⟨"QR code has expired", by simp [verifyQRCode, h, h2]⟩
        · exact Or.inl ⟨p, by simp [verifyQRCode, h, h2]⟩
      · have hf : (truthyStr p.attendeeId && truthyStr p.eventId && truthyInt p.timestamp) = false :=
          Bool.eq_false_iff.mpr h
        exact Or.inr ⟨"Invalid QR code data", by simp [verifyQRCode, hf]⟩

/-- Witness for C8: a parse failure, a payload missing `attendeeId`, and a
25-hour-old payload each produce their tagged error. -/
theorem verifyQRCode_total_tagged_witness :
    verifyQRCode (Except.error "") 0 = QRVerifyResult.invalid "Invalid QR code" ∧
    verifyQRCode (Except.ok (checkInQRPayload "c" "e" 5)) 5
      = QRVerifyResult.invalid "Invalid QR code data" ∧
    verifyQRCode (Except.ok (attendeeQRPayload "a" "e" "" 1000)) (1000 + 25 * 60 * 60 * 1000)
      = QRVerifyResult.invalid "QR code has expired" := by
  refine ⟨?_, ?_, ?_⟩
  · simpa using verifyQRCode_total_tagged.1 "" 0
  · exact verifyQRCode_total_tagged.2.1 _ 5 (by decide)
  · exact verifyQRCode_total_tagged.2.2.1 _ _ 1000 rfl (by decide) (by decide)

/-- Claim C10: a check-in token produced by `generateCheckInQRCode` carries
no `attendeeId`, so the verifier rejects its serialization as invalid data
at every verification time, fresh or not. -/
theorem checkInQR_never_accepted (checkInCode eventId : String) (ts now : Int) :
    verifyQRCode (Except.ok (checkInQRPayload checkInCode eventId ts)) now
      = QRVerifyResult.invalid "Invalid QR code data" := by
  simp [verifyQRCode, checkInQRPayload, truthyStr]

/-! ## Check-In Service (controllers/scan.controller.js, controllers/attendee.controller.js,
models/attendee.model.js) -/

/-- Attendee status values used by the check-in paths. -/
inductive AttendeeStatus where
  | registered
  | checked_in
  | cancelled
deriving Repr, DecidableEq

/-- The attendee row fields relevant to check-in. -/
structure Attendee where
  id : String
  event_id : String
  name : String
  email : Option String
  status : AttendeeStatus
  check_in_time : Option Int
  checked_in_by : Option String
deriving Repr, DecidableEq

/-- The event row fields relevant to check-in authorization. -/
structure Event where
  id : String
  organizer_id : String
  title : String
deriving Repr, DecidableEq

/-- `findAttendeeById` (attendee.model.js): single-row lookup by id.  A
missing row makes the model throw and the controller surface an error; the
embedding returns `none` for that case. -/
def findById (rows : List Attendee) (aid : String) : Option Attendee :=
  rows.find? (fun a => a.id == aid)

/-- `findEventById` (event.model.js): single-row lookup by id. -/
def findEventById (events : List Event) (eid : String) : Option Event :=
  events.find? (fun e => e.id == eid)

/-- `updateAttendee` (attendee.model.js): `update(...).eq('id', aid)` — every
row whose id matches is replaced by the merged row `a`. -/
def updateAttendeeRows (rows : List Attendee) (aid : String) (a : Attendee) : List Attendee :=
  rows.map (fun r => if r.id == aid then a else r)

/-- Outcome of a check-in request: a success response carrying the attendee,
the response message and the `isDuplicate` flag, or an error response
built by `createError(status, message)`. -/
inductive CheckInOutcome where
  | ok : Attendee → String → Bool → CheckInOutcome
  | err : Nat → String → CheckInOutcome
deriving Repr, DecidableEq

/-- `scanQRCode` (scan.controller.js): decode the QR data, load attendee and
event, answer duplicates with `isDuplicate=true` and no mutation, otherwise
transition the attendee to `checked_in` stamping `check_in_time` and
`checked_in_by` (`req.user?.id || 'system'`).  The confirmation email is
fire-and-forget and stateless here.  Returns the response together with the
attendees table after the call. -/
def scanQRCode (parse : String → Except String QRPayload) (qrData : String)
    (user : Option String) (now : Int)
    (events : List Event) (attendees : List Attendee) :
    CheckInOutcome × List Attendee :=
  if qrData.isEmpty then
    (CheckInOutcome.err 400 "QR code data is required", attendees)
  else
    match verifyQRCode (parse qrData) now with
    | QRVerifyResult.invalid msg =>
        (CheckInOutcome.err 400 (if msg.isEmpty then "Invalid QR code" else msg), attendees)
    | QRVerifyResult.valid qrInfo =>
        match findById attendees (qrInfo.attendeeId.getD "") with
        | none => (CheckInOutcome.err 404 "Attendee not found", attendees)
        | some attendee =>
          match findEventById events (qrInfo.eventId.getD "") with
          | none => (CheckInOutcome.err 404 "Event not found", attendees)
          | some _ev =>
            if attendee.status = AttendeeStatus.checked_in then
              (CheckInOutcome.ok attendee "Attendee already checked in" true, attendees)
            else
              let updated : Attendee :=
                { attendee with status := AttendeeStatus.checked_in
                                check_in_time := some now
                                checked_in_by := some (user.getD "system") }
              (CheckInOutcome.ok updated "Check-in successful" false,
               updateAttendeeRows attendees attendee.id updated)

/-- `manualCheckIn` (scan.controller.js): no QR decode; duplicate answered
with `isDuplicate=true` before the cancelled check; a cancelled attendee is
rejected with 400 `Cannot check in a cancelled attendee`; otherwise the
transition stamps `check_in_time` and `checked_in_by`
(`req.user?.id || 'manual'`).  The event lookup happens only after both
status checks. -/
def manualCheckIn (attendeeId : String) (user : Option String) (now : Int)
    (events : List Event) (attendees : List Attendee) :
    CheckInOutcome × List Attendee :=
  match findById attendees attendeeId with
  | none => (CheckInOutcome.err 404 "Attendee not found", attendees)
  | some attendee =>
    if attendee.status = AttendeeStatus.checked_in then
      (CheckInOutcome.ok attendee "Attendee already checked in" true, attendees)
    else if attendee.status = AttendeeStatus.cancelled then
      (CheckInOutcome.err 400 "Cannot check in a cancelled attendee", attendees)
    else
      match findEventById events attendee.event_id with
      | none => (CheckInOutcome.err 404 "Event not found", attendees)
      | some _ev =>
        let updated : Attendee :=
          { attendee with status := AttendeeStatus.checked_in
                          check_in_time := some now
                          checked_in_by := some (user.getD "manual") }
        (CheckInOutcome.ok updated "Manual check-in successful" false,
         updateAttendeeRows attendees attendeeId updated)

/-- `checkInAttendeeController` (attendee.controller.js): after the
ownership check, a duplicate check-in is rejected with a 400 error — unlike
the scan-controller paths — and otherwise `checkInAttendee`
(attendee.model.js) sets `status` and `check_in_time` (no `checked_in_by`). -/
def checkInAttendeeController (attendeeId : String) (user : String) (now : Int)
    (events : List Event) (attendees : List Attendee) :
    CheckInOutcome × List Attendee :=
  match findById attendees attendeeId with
  | none => (CheckInOutcome.err 404 "Attendee not found", attendees)
  | some attendee =>
    match findEventById events attendee.event_id with
    | none => (CheckInOutcome.err 404 "Event not found", attendees)
    | some ev =>
      if ev.organizer_id ≠ user then
        (CheckInOutcome.err 403 "Not authorized to check in this attendee", attendees)
      else if attendee.status = AttendeeStatus.checked_in then
        (CheckInOutcome.err 400 "Attendee already checked in", attendees)
      else
        let updated : Attendee :=
          { attendee with status := AttendeeStatus.checked_in
                          check_in_time := some now }
        (CheckInOutcome.ok updated "Attendee checked in successfully" false,
         updateAttendeeRows attendees attendeeId updated)

/-! Concrete fixtures used by counterexamples and witnesses. -/

/-- A concrete decoded ticket payload for attendee a1 at event e1, stamped t=50. -/
def cTicketPayload : QRPayload :=
  { type := some "ticket"
    attendeeId := some "a1"
    eventId := some "e1"
    timestamp := some 50
    code := none }

/-- A concrete JSON parse stub: the string "QR" parses to `cTicketPayload`. -/
def cParse : String → Except String QRPayload :=
  fun s => if s = "QR" then Except.ok cTicketPayload else Except.error "Unexpected token"

/-- A concrete attendee a1 of event e1 in a given status, never yet checked in. -/
def cAttendee (st : AttendeeStatus) : Attendee :=
  { id := "a1"
    event_id := "e1"
    name := "Ann"
    email := none
    status := st
    check_in_time := none
    checked_in_by := none }

/-- A concrete attendee a1 already checked in at t=42. -/
def cAttendeeChecked : Attendee :=
  { id := "a1"
    event_id := "e1"
    name := "Ann"
    email := none
    status := AttendeeStatus.checked_in
    check_in_time := some 42
    checked_in_by := some "manual" }

/-- A concrete event e1 owned by organizer o1. -/
def cEvent1 : Event :=
  { id := "e1", organizer_id := "o1", title := "Conf" }

/-- Counterexample to C5: a cancelled attendee scanned through the QR path
is transitioned to `checked_in` — the scan controller has no cancelled
check, so the claim that every check-in attempt on a cancelled attendee
fails and leaves the record unchanged is false on the code. -/
theorem scanQRCode_cancelled_checks_in :
    (scanQRCode cParse "QR" (some "u1") 60 [cEvent1] [cAttendee AttendeeStatus.cancelled]).1
      = CheckInOutcome.ok
          { cAttendee AttendeeStatus.cancelled with
              status := AttendeeStatus.checked_in
              check_in_time := some 60
              checked_in_by := some "u1" }
          "Check-in successful" false ∧
    (scanQRCode cParse "QR" (some "u1") 60 [cEvent1] [cAttendee AttendeeStatus.cancelled]).2
      ≠ [cAttendee AttendeeStatus.cancelled] := by
  constructor
  · rfl
  · decide

/-- Claim C5 (amended): only `manualCheckIn` rejects a cancelled attendee —
with a 400 `Cannot check in a cancelled attendee` error and no mutation —
while the QR scan path performs no cancelled check and transitions a
cancelled attendee to `checked_in`. -/
theorem cancelled_checkin_paths (parse : String → Except String QRPayload)
    (qrData : String) (user : Option String) (now : Int)
    (events : List Event) (attendees : List Attendee)
    (aid : String) (a : Attendee) (q : QRPayload) (ev : Event) :
    (findById attendees aid = some a → a.status = AttendeeStatus.cancelled →
       manualCheckIn aid user now events attendees
         = (CheckInOutcome.err 400 "Cannot check in a cancelled attendee", attendees)) ∧
    (qrData.isEmpty = false →
     verifyQRCode (parse qrData) now = QRVerifyResult.valid q →
     findById attendees (q.attendeeId.getD "") = some a →
     findEventById events (q.eventId.getD "") = some ev →
     a.status = AttendeeStatus.cancelled →
       scanQRCode parse qrData user now events attendees
         = (CheckInOutcome.ok
              { a with status := AttendeeStatus.checked_in
                       check_in_time := some now
                       checked_in_by := some (user.getD "system") }
              "Check-in successful" false,
            updateAttendeeRows attendees a.id
              { a with status := AttendeeStatus.checked_in
                       check_in_time := some now
                       checked_in_by := some (user.getD "system") })) := by
  constructor
  · intro hfind hst
    simp [manualCheckIn, hfind, hst]
  · intro hqr hv hfind hev hst
    simp [scanQRCode, hqr, hv, hfind, hev, hst]

/-- Witness for the amended C5: both conjuncts at the concrete cancelled
attendee a1 — the manual rejection and the QR-path resurrection. -/
theorem cancelled_checkin_paths_witness :
    manualCheckIn "a1" (some "u1") 60 [cEvent1] [cAttendee AttendeeStatus.cancelled]
      = (CheckInOutcome.err 400 "Cannot check in a cancelled attendee",
         [cAttendee AttendeeStatus.cancelled]) ∧
    scanQRCode cParse "QR" (some "u1") 60 [cEvent1] [cAttendee AttendeeStatus.cancelled]
      = (CheckInOutcome.ok
           { cAttendee AttendeeStatus.cancelled with
               status := AttendeeStatus.checked_in
               check_in_time := some 60
               checked_in_by := some "u1" }
           "Check-in successful" false,
         updateAttendeeRows [cAttendee AttendeeStatus.cancelled] "a1"
           { cAttendee AttendeeStatus.cancelled with
               status := AttendeeStatus.checked_in
               check_in_time := some 60
               checked_in_by := some "u1" }) := by
  have h := cancelled_checkin_paths cParse "QR" (some "u1") 60 [cEvent1]
    [cAttendee AttendeeStatus.cancelled] "a1" (cAttendee AttendeeStatus.cancelled)
    cTicketPayload cEvent1
  exact ⟨h.1 (by decide) rfl, h.2 (by decide) (by decide) (by decide) (by decide) rfl⟩

/-- Counterexample to C6: on the `checkInAttendeeController` entry point a
second check-in of an already-checked-in attendee is rejected with a 400
error rather than answered with success and `isDuplicate=true`. -/
theorem checkInController_duplicate_is_error :
    (checkInAttendeeController "a1" "o1" 60 [cEvent1] [cAttendeeChecked]).1
      = CheckInOutcome.err 400 "Attendee already checked in" := by
  decide

/-- Claim C6 (amended): on the two scan-controller entry points a duplicate
check-in returns success with `isDuplicate=true`, the attendee row — and in
particular its original `check_in_time` — unchanged and no table mutation;
`checkInAttendeeController`, however, rejects a duplicate with a 400
`Attendee already checked in` error (also without mutation). -/
theorem duplicate_checkin_paths (parse : String → Except String QRPayload)
    (qrData : String) (user : Option String) (userId : String) (now : Int)
    (events : List Event) (attendees : List Attendee)
    (aid : String) (a : Attendee) (q : QRPayload) (ev : Event) :
    (qrData.isEmpty = false →
     verifyQRCode (parse qrData) now = QRVerifyResult.valid q →
     findById attendees (q.attendeeId.getD "") = some a →
     findEventById events (q.eventId.getD "") = some ev →
     a.status = AttendeeStatus.checked_in →
       scanQRCode parse qrData user now events attendees
         = (CheckInOutcome.ok a "Attendee already checked in" true, attendees)) ∧
    (findById attendees aid = some a → a.status = AttendeeStatus.checked_in →
       manualCheckIn aid user now events attendees
         = (CheckInOutcome.ok a "Attendee already checked in" true, attendees)) ∧
    (findById attendees aid = some a →
     findEventById events a.event_id = some ev →
     ev.organizer_id = userId →
     a.status = AttendeeStatus.checked_in →
       checkInAttendeeController aid userId now events attendees
         = (CheckInOutcome.err 400 "Attendee already checked in", attendees)) := by
  refine ⟨?_, ?_, ?_⟩
  · intro hqr hv hfind hev hst
    simp [scanQRCode, hqr, hv, hfind, hev, hst]
  · intro hfind hst
    simp [manualCheckIn, hfind, hst]
  · intro hfind hev hown hst
    simp [checkInAttendeeController, hfind, hev, hown, hst]

/-- Witness for the amended C6: the three entry points at the concrete
already-checked-in attendee a1 (check-in time 42). -/
theorem duplicate_checkin_paths_witness :
    scanQRCode cParse "QR" (some "u1") 60 [cEvent1] [cAttendeeChecked]
      = (CheckInOutcome.ok cAttendeeChecked "Attendee already checked in" true,
         [cAttendeeChecked]) ∧
    manualCheckIn "a1" (some "u1") 60 [cEvent1] [cAttendeeChecked]
      = (CheckInOutcome.ok cAttendeeChecked "Attendee already checked in" true,
         [cAttendeeChecked]) ∧
    checkInAttendeeController "a1" "o1" 60 [cEvent1] [cAttendeeChecked]
      = (CheckInOutcome.err 400 "Attendee already checked in", [cAttendeeChecked]) := by
  have h := duplicate_checkin_paths cParse "QR" (some "u1") "o1" 60 [cEvent1]
    [cAttendeeChecked] "a1" cAttendeeChecked cTicketPayload cEvent1
  exact ⟨h.1 (by decide) (by decide) (by decide) (by decide) rfl,
         h.2.1 (by decide) rfl,
         h.2.2 (by decide) (by decide) rfl rfl⟩

/-! ## Payment Ledger and Reconciliation (services/payment.service.js,
controllers/payment.controller.js) -/

/-- Payment status values stored in the `payments` table. -/
inductive PaymentStatus where
  | created
  | payment_link_created
  | payment_link_sent
  | captured
  | failed
  | refunded
deriving Repr, DecidableEq

/-- The JS string stored for each status (used in the refund rejection
message). -/
def statusString : PaymentStatus → String
  | PaymentStatus.created => "created"
  | PaymentStatus.payment_link_created => "payment_link_created"
  | PaymentStatus.payment_link_sent => "payment_link_sent"
  | PaymentStatus.captured => "captured"
  | PaymentStatus.failed => "failed"
  | PaymentStatus.refunded => "refunded"

/-- The gateway-side payment object returned by `razorpay.payments.fetch`. -/
structure GatewayPayment where
  id : String
  method : String
deriving Repr, DecidableEq

/-- The gateway-side refund object returned by `razorpay.payments.refund`. -/
structure RefundRecord where
  id : String
  amount : Int
deriving Repr, DecidableEq

/-- A `payments` row.  `payment_id` is the gateway payment id, populated on
capture; amounts are integral for the embedding. -/
structure Payment where
  id : String
  order_id : String
  payment_id : Option String
  event_id : String
  attendee_id : String
  ticket_type_id : String
  amount : Int
  currency : String
  status : PaymentStatus
  payment_method : Option String
  payment_details : Option GatewayPayment
  error_message : Option String
  refund_id : Option String
  refund_details : Option RefundRecord
  updated_at : Int
deriving Repr, DecidableEq

/-- External collaborators of the payment service: the HMAC-SHA256
primitive, the server-held key secret, and the gateway fetch call (an
`Except.error` is a thrown gateway error carrying its message). -/
structure GatewayEnv where
  hmac : String → String → String
  keySecret : String
  fetchPayment : String → Except String GatewayPayment

/-- The `{order_id, payment_id, signature}` triple submitted by the client
or assembled by the webhook handler. -/
structure PaymentRequest where
  order_id : String
  payment_id : String
  signature : String
deriving Repr, DecidableEq

/-- Result of `processSuccessfulPayment`: the `{success, payment, message}`
object on success, or the thrown `createError(status, message)`. -/
inductive ProcessResult where
  | success : Payment → String → ProcessResult
  | failure : Nat → String → ProcessResult
deriving Repr, DecidableEq

/-- `verifyPayment(orderId, paymentId, signature)` (payment.service.js):
recompute HMAC-SHA256 over `orderId|paymentId` with the key secret and
compare to the supplied signature. -/
def verifyPayment (hmac : String → String → String) (secret : String)
    (orderId paymentId signature : String) : Bool :=
  hmac secret (orderId ++ "|" ++ paymentId) == signature

/-- `update(...).eq('order_id', oid)` on the `payments` table: rewrite every
matching row. -/
def updatePaymentsByOrderId (rows : List Payment) (oid : String)
    (f : Payment → Payment) : List Payment :=
  rows.map (fun p => if p.order_id == oid then f p else p)

/-- `update(...).eq('payment_id', pid)` on the `payments` table. -/
def updatePaymentsByPaymentId (rows : List Payment) (pid : String)
    (f : Payment → Payment) : List Payment :=
  rows.map (fun p => if p.payment_id == some pid then f p else p)

/-- The catch-block update of `processSuccessfulPayment`: set the matching
rows to `failed` with the thrown error's message. -/
def markPaymentFailed (rows : List Payment) (oid : String) (msg : String)
    (now : Int) : List Payment :=
  updatePaymentsByOrderId rows oid (fun p =>
    { p with status := PaymentStatus.failed
             error_message := some msg
             updated_at := now })

/-- The capture update applied by `processSuccessfulPayment`: status
`captured`, gateway payment id, method and details snapshot, fresh
`updated_at`.  It is keyed only by `order_id` — no precondition on the
current status. -/
def captureUpdate (gp : GatewayPayment) (now : Int) (p : Payment) : Payment :=
  { p with status := PaymentStatus.captured
           payment_id := some gp.id
           payment_method := some gp.method
           payment_details := some gp
           updated_at := now }

/-- `.select().single()` after the capture update: yields the row if exactly
one row matches the order id, an error otherwise. -/
def selectSingleByOrderId (rows : List Payment) (oid : String) : Option Payment :=
  match rows.filter (fun p => p.order_id == oid) with
  | [p] => some p
  | _ => none

/-- `processSuccessfulPayment(paymentData)` (payment.service.js).  Any
throw inside the `try` (invalid signature, gateway fetch failure, row-match
failure) lands in the catch block, which marks the rows for this order
`failed` and rethrows a 500 `Failed to process payment`.
The `.single()` error message of the post-update select is a stand-in
string — no claim depends on it. -/
def processSuccessfulPayment (env : GatewayEnv) (req : PaymentRequest) (now : Int)
    (db : List Payment) : ProcessResult × List Payment :=
  if !(verifyPayment env.hmac env.keySecret req.order_id req.payment_id req.signature) then
    (ProcessResult.failure 500 "Failed to process payment",
     markPaymentFailed db req.order_id "Invalid payment signature" now)
  else
    match env.fetchPayment req.payment_id with
    | Except.error msg =>
        (ProcessResult.failure 500 "Failed to process payment",
         markPaymentFailed db req.order_id msg now)
    | Except.ok gp =>
        let captured := updatePaymentsByOrderId db req.order_id (captureUpdate gp now)
        match selectSingleByOrderId captured req.order_id with
        | some row => (ProcessResult.success row "Payment processed successfully", captured)
        | none =>
            (ProcessResult.failure 500 "Failed to process payment",
             markPaymentFailed captured req.order_id "Row not found" now)

/-- The webhook body fields read by `handleWebhook`:
`payload.payment.entity`. -/
structure WebhookEntity where
  id : String
  order_id : String
  signature : String
  error_description : String
deriving Repr, DecidableEq

/-- Response of `handleWebhook`: `200 {received:true}`, or the error passed
to `next` (signature rejection, or a processing error bubbling out). -/
inductive WebhookOutcome where
  | received : WebhookOutcome
  | rejected : Nat → String → WebhookOutcome
deriving Repr, DecidableEq

/-- `handleWebhook` (payment.controller.js): recompute the HMAC over the
serialized request body with the webhook secret and compare it to the
`x-razorpay-signature` header before anything else; a mismatch is rejected
with 401 `Invalid webhook signature` and nothing is dispatched.  On a match,
`payment.captured` dispatches the shared `processSuccessfulPayment`,
`payment.failed` marks the row for the gateway payment id failed, and other
events are acknowledged and ignored.  `bodyString` is
`JSON.stringify(req.body)`, the serialization of the parsed body. -/
def handleWebhook (env : GatewayEnv) (webhookSecret : String) (bodyString : String)
    (eventName : String) (entity : WebhookEntity) (headerSignature : String)
    (now : Int) (db : List Payment) : WebhookOutcome × List Payment :=
  if env.hmac webhookSecret bodyString ≠ headerSignature then
    (WebhookOutcome.rejected 401 "Invalid webhook signature", db)
  else if eventName = "payment.captured" then
    match processSuccessfulPayment env
        { order_id := entity.order_id, payment_id := entity.id, signature := entity.signature }
        now db with
    | (ProcessResult.success _ _, db2) => (WebhookOutcome.received, db2)
    | (ProcessResult.failure s m, db2) => (WebhookOutcome.rejected s m, db2)
  else if eventName = "payment.failed" then
    (WebhookOutcome.received,
     updatePaymentsByPaymentId db entity.id (fun p =>
       { p with status := PaymentStatus.failed
                error_message := some entity.error_description
                updated_at := now }))
  else
    (WebhookOutcome.received, db)

/-- JS `a || b` for an optional numeric input (0 is falsy). -/
def jsOrInt : Option Int → Int → Int
  | none, d => d
  | some a, d => if a = 0 then d else a

/-- JS `a || b` for an optional string input (the empty string is falsy). -/
def jsOrStr : Option String → String → String
  | none, d => d
  | some s, d => if s.isEmpty then d else s

/-- The gateway refund call, `razorpay.payments.refund`. -/
structure RefundEnv where
  refund : String → Int → String → Except String RefundRecord

/-- Result of the refund path: `{success, refund, message}` or the thrown
`createError(status, message)`. -/
inductive RefundResult where
  | success : RefundRecord → String → RefundResult
  | failure : Nat → String → RefundResult
deriving Repr, DecidableEq

/-- `refundPayment(paymentId, amount, reason)` (payment.service.js): call
the gateway (converting the amount to paise), then set the rows for this
gateway payment id to `refunded` with the refund snapshot.  A gateway
failure is rethrown as a 500 with no local mutation. -/
def refundPayment (renv : RefundEnv) (paymentId : String) (amount : Int)
    (reason : String) (now : Int) (db : List Payment) : RefundResult × List Payment :=
  match renv.refund paymentId (100 * amount) reason with
  | Except.error _ => (RefundResult.failure 500 "Failed to process refund", db)
  | Except.ok r =>
      (RefundResult.success r "Refund processed successfully",
       updatePaymentsByPaymentId db paymentId (fun p =>
         { p with status := PaymentStatus.refunded
                  refund_id := some r.id
                  refund_details := some r
                  updated_at := now }))

/-- Lookup of a `payments` row by primary key. -/
def findPaymentById (rows : List Payment) (pid : String) : Option Payment :=
  rows.find? (fun p => p.id == pid)

/-- `refundPaymentController` (payment.controller.js): load the payment by
id, reject with 400 `Payment cannot be refunded. Current status: ...` when
the status is not `captured`, otherwise refund the full amount by default
(`amount || payment.amount`) with reason `reason || 'Refund'`. -/
def refundPaymentController (renv : RefundEnv) (paymentId : String)
    (amount : Option Int) (reason : Option String) (now : Int)
    (db : List Payment) : RefundResult × List Payment :=
  match findPaymentById db paymentId with
  | none => (RefundResult.failure 404 "Payment not found", db)
  | some payment =>
    if payment.status ≠ PaymentStatus.captured then
      (RefundResult.failure 400
        ("Payment cannot be refunded. Current status: " ++ statusString payment.status), db)
    else
      refundPayment renv (payment.payment_id.getD "")
        (jsOrInt amount payment.amount) (jsOrStr reason "Refund") now db

/-! Payment fixtures for counterexamples and witnesses. -/

/-- A concrete executable HMAC stand-in (the claims quantify over the
primitive). -/
def cHmac : String → String → String :=
  fun secret msg => secret ++ "#" ++ msg

/-- A concrete gateway environment whose fetch always succeeds with a card
payment echoing the requested id. -/
def cEnv : GatewayEnv :=
  { hmac := cHmac
    keySecret := "sek"
    fetchPayment := fun pid => Except.ok { id := pid, method := "card" } }

/-- A concrete gateway refund environment that always succeeds. -/
def cRefundEnv : RefundEnv :=
  { refund := fun _ amt _ => Except.ok { id := "rf_1", amount := amt } }

/-- A concrete payment row for order order_abc123 in a given status. -/
def cPayment (st : PaymentStatus) : Payment :=
  { id := "p1"
    order_id := "order_abc123"
    payment_id := none
    event_id := "e1"
    attendee_id := "a1"
    ticket_type_id := "t1"
    amount := 499
    currency := "INR"
    status := st
    payment_method := none
    payment_details := none
    error_message := none
    refund_id := none
    refund_details := none
    updated_at := 0 }

/-- A request for order_abc123 carrying the correct signature under `cEnv`. -/
def cReq : PaymentRequest :=
  { order_id := "order_abc123"
    payment_id := "pay_1"
    signature := "sek#order_abc123|pay_1" }

/-! Helper lemmas about the capture update. -/

/-- Filtering by order id commutes with an order-id-keyed update whose
per-row function preserves `order_id`. -/
theorem filter_updatePaymentsByOrderId (db : List Payment) (oid : String)
    (f : Payment → Payment) (hf : ∀ p, (f p).order_id = p.order_id) :
    (updatePaymentsByOrderId db oid f).filter (fun p => p.order_id == oid)
      = (db.filter (fun p => p.order_id == oid)).map f := by
  induction db with
  | nil => rfl
  | cons a t ih =>
    simp only [updatePaymentsByOrderId, List.map_cons] at ih ⊢
    by_cases h : (a.order_id == oid) = true
    · have h2 : ((f a).order_id == oid) = true := by rw [hf]; exact h
      rw [if_pos h, List.filter_cons, List.filter_cons, if_pos h2, if_pos h, List.map_cons, ih]
    · rw [if_neg h, List.filter_cons, List.filter_cons, if_neg h, if_neg h, ih]

/-- Two successive order-id-keyed updates collapse when the outer function
absorbs the inner one and the inner one preserves `order_id`. -/
theorem updatePaymentsByOrderId_comp (db : List Payment) (oid : String)
    (f g : Payment → Payment) (hg : ∀ p, (g p).order_id = p.order_id)
    (hfg : ∀ p, f (g p) = f p) :
    updatePaymentsByOrderId (updatePaymentsByOrderId db oid g) oid f
      = updatePaymentsByOrderId db oid f := by
  induction db with
  | nil => rfl
  | cons a t ih =>
    simp only [updatePaymentsByOrderId, List.map_cons] at ih ⊢
    refine congrArg₂ List.cons ?_ ih
    by_cases h : (a.order_id == oid) = true
    · have h2 : ((g a).order_id == oid) = true := by rw [hg]; exact h
      rw [if_pos h, if_pos h2, if_pos h, hfg]
    · rw [if_neg h, if_neg h]

/-- When exactly one row matches the order id, the post-update single-row
select returns its captured version. -/
theorem selectSingle_after_capture (db : List Payment) (oid : String)
    (gp : GatewayPayment) (now : Int) (p : Payment)
    (hone : db.filter (fun q => q.order_id == oid) = [p]) :
    selectSingleByOrderId (updatePaymentsByOrderId db oid (captureUpdate gp now)) oid
      = some (captureUpdate gp now p) := by
  unfold selectSingleByOrderId
  rw [filter_updatePaymentsByOrderId db oid (captureUpdate gp now) (fun q => rfl), hone]
  rfl

/-- One run of `processSuccessfulPayment` on a valid signature, a successful
gateway fetch and a uniquely matching row: success carrying the captured
row, the table rewritten by the capture update. -/
theorem processPayment_run (env : GatewayEnv) (req : PaymentRequest) (now : Int)
    (db : List Payment) (gp : GatewayPayment) (p : Payment)
    (hv : verifyPayment env.hmac env.keySecret req.order_id req.payment_id req.signature = true)
    (hf : env.fetchPayment req.payment_id = Except.ok gp)
    (hone : db.filter (fun q => q.order_id == req.order_id) = [p]) :
    processSuccessfulPayment env req now db
      = (ProcessResult.success (captureUpdate gp now p) "Payment processed successfully",
         updatePaymentsByOrderId db req.order_id (captureUpdate gp now)) := by
  have hs := selectSingle_after_capture db req.order_id gp now p hone
  simp only [processSuccessfulPayment, hv, Bool.not_true, Bool.false_eq_true, if_false, hf, hs]

/-- Counterexample to C1: a call with a tampered signature on a `created`
payment does fail, but the catch block then rewrites the row to `failed`
with an error message — the row is not left at its prior status. -/
theorem processPayment_invalidSig_mutates :
    (processSuccessfulPayment cEnv
        { order_id := "order_abc123", payment_id := "pay_1", signature := "tampered" } 7
        [cPayment PaymentStatus.created]).2
      ≠ [cPayment PaymentStatus.created] ∧
    (processSuccessfulPayment cEnv
        { order_id := "order_abc123", payment_id := "pay_1", signature := "tampered" } 7
        [cPayment PaymentStatus.created]).2
      = [{ cPayment PaymentStatus.created with
             status := PaymentStatus.failed
             error_message := some "Invalid payment signature"
             updated_at := 7 }] := by
  decide

/-- Claim C1 (amended): a call whose signature is not the HMAC of
`orderId|paymentId` fails — the invalid-signature error is caught and
surfaced as a 500 processing failure — and the catch block transitions
every row keyed by that orderId to `failed` with the invalid-signature
message recorded, rather than leaving the payment at its prior status;
rows of other orders are untouched. -/
theorem processPayment_invalidSig_marks_failed (env : GatewayEnv) (req : PaymentRequest)
    (now : Int) (db : List Payment)
    (h : verifyPayment env.hmac env.keySecret req.order_id req.payment_id req.signature = false) :
    processSuccessfulPayment env req now db
      = (ProcessResult.failure 500 "Failed to process payment",
         markPaymentFailed db req.order_id "Invalid payment signature" now) ∧
    ∀ q ∈ (processSuccessfulPayment env req now db).2,
      q.order_id = req.order_id → q.status = PaymentStatus.failed := by
  have he : processSuccessfulPayment env req now db
      = (ProcessResult.failure 500 "Failed to process payment",
         markPaymentFailed db req.order_id "Invalid payment signature" now) := by
    simp only [processSuccessfulPayment, h, Bool.not_false, if_true]
  refine ⟨he, ?_⟩
  rw [he]
  intro q hq hqo
  simp only [markPaymentFailed, updatePaymentsByOrderId, List.mem_map] at hq
  obtain ⟨r, _, hru⟩ := hq
  by_cases hro : (r.order_id == req.order_id) = true
  · rw [if_pos hro] at hru
    rw [← hru]
  · rw [if_neg hro] at hru
    rw [← hru] at hqo
    exact absurd (beq_iff_eq.mpr hqo) hro

/-- Witness for the amended C1 at the concrete tampered request. -/
theorem processPayment_invalidSig_marks_failed_witness :
    processSuccessfulPayment cEnv
        { order_id := "order_abc123", payment_id := "pay_1", signature := "tampered" } 7
        [cPayment PaymentStatus.created]
      = (ProcessResult.failure 500 "Failed to process payment",
         markPaymentFailed [cPayment PaymentStatus.created] "order_abc123"
           "Invalid payment signature" 7) :=
  (processPayment_invalidSig_marks_failed cEnv
    { order_id := "order_abc123", payment_id := "pay_1", signature := "tampered" } 7
    [cPayment PaymentStatus.created] (by decide)).1

/-- Counterexample to C2: the capture-confirmed transition applied to a
payment already `refunded` is not rejected — the update is keyed only by
`order_id`, so the refunded row is resurrected to `captured` and the call
reports success. -/
theorem processPayment_resurrects_refunded :
    (cPayment PaymentStatus.refunded).status = PaymentStatus.refunded ∧
    (processSuccessfulPayment cEnv cReq 9 [cPayment PaymentStatus.refunded]).1
      = ProcessResult.success
          (captureUpdate { id := "pay_1", method := "card" } 9 (cPayment PaymentStatus.refunded))
          "Payment processed successfully" ∧
    (processSuccessfulPayment cEnv cReq 9 [cPayment PaymentStatus.refunded]).2
      = [captureUpdate { id := "pay_1", method := "card" } 9 (cPayment PaymentStatus.refunded)] ∧
    (captureUpdate { id := "pay_1", method := "card" } 9 (cPayment PaymentStatus.refunded)).status
      = PaymentStatus.captured := by
  decide

/-- Claim C2 (amended): `processSuccessfulPayment` applies the capture
update keyed only by `orderId`, with no precondition on the current status:
for every prior status of the uniquely matching row — `refunded` and
`failed` included — a valid signature and successful gateway fetch set the
row to `captured`.  Forward-only transitions are not enforced on this path
(the refund controller separately gates refunds on `captured`). -/
theorem processPayment_capture_unconditional (env : GatewayEnv) (req : PaymentRequest)
    (now : Int) (db : List Payment) (gp : GatewayPayment) (p : Payment)
    (hv : verifyPayment env.hmac env.keySecret req.order_id req.payment_id req.signature = true)
    (hf : env.fetchPayment req.payment_id = Except.ok gp)
    (hone : db.filter (fun q => q.order_id == req.order_id) = [p]) :
    processSuccessfulPayment env req now db
      = (ProcessResult.success (captureUpdate gp now p) "Payment processed successfully",
         updatePaymentsByOrderId db req.order_id (captureUpdate gp now)) ∧
    (captureUpdate gp now p).status = PaymentStatus.captured :=
  ⟨processPayment_run env req now db gp p hv hf hone, rfl⟩

/-- Witness for the amended C2: the concrete `refunded` row is captured. -/
theorem processPayment_capture_unconditional_witness :
    processSuccessfulPayment cEnv cReq 9 [cPayment PaymentStatus.refunded]
      = (ProcessResult.success
           (captureUpdate { id := "pay_1", method := "card" } 9 (cPayment PaymentStatus.refunded))
           "Payment processed successfully",
         updatePaymentsByOrderId [cPayment PaymentStatus.refunded] "order_abc123"
           (captureUpdate { id := "pay_1", method := "card" } 9)) :=
  (processPayment_capture_unconditional cEnv cReq 9 [cPayment PaymentStatus.refunded]
    { id := "pay_1", method := "card" } (cPayment PaymentStatus.refunded)
    (by decide) rfl (by decide)).1

/-- Counterexample to C3: the second identical call is not a no-op — it
re-runs the capture update, so the table after the second call differs from
the table after the first (the row's `updated_at` is rewritten), even
though the call still reports success. -/
theorem processPayment_repeat_mutates :
    (processSuccessfulPayment cEnv cReq 200
        (processSuccessfulPayment cEnv cReq 100 [cPayment PaymentStatus.created]).2).2
      ≠ (processSuccessfulPayment cEnv cReq 100 [cPayment PaymentStatus.created]).2 ∧
    (processSuccessfulPayment cEnv cReq 200
        (processSuccessfulPayment cEnv cReq 100 [cPayment PaymentStatus.created]).2).1
      = ProcessResult.success
          (captureUpdate { id := "pay_1", method := "card" } 200 (cPayment PaymentStatus.created))
          "Payment processed successfully" := by
  decide

/-- Claim C3 (amended): invoking `processSuccessfulPayment` twice with the
same valid request yields `captured` exactly once as the final status, and
the second call returns the same success result with the same captured row
except for a refreshed `updated_at` — but not by detecting the
already-captured row: the code re-runs signature verification, the gateway
fetch and the identical capture update, so the second call rewrites the row
(its `updated_at`) instead of being a no-op. -/
theorem processPayment_second_call (env : GatewayEnv) (req : PaymentRequest)
    (now1 now2 : Int) (db : List Payment) (gp : GatewayPayment) (p : Payment)
    (hv : verifyPayment env.hmac env.keySecret req.order_id req.payment_id req.signature = true)
    (hf : env.fetchPayment req.payment_id = Except.ok gp)
    (hone : db.filter (fun q => q.order_id == req.order_id) = [p]) :
    processSuccessfulPayment env req now2 (processSuccessfulPayment env req now1 db).2
      = (ProcessResult.success (captureUpdate gp now2 p) "Payment processed successfully",
         updatePaymentsByOrderId db req.order_id (captureUpdate gp now2)) ∧
    captureUpdate gp now2 p = { captureUpdate gp now1 p with updated_at := now2 } ∧
    (captureUpdate gp now2 p).status = PaymentStatus.captured := by
  have h1 := processPayment_run env req now1 db gp p hv hf hone
  have hone1 : (updatePaymentsByOrderId db req.order_id (captureUpdate gp now1)).filter
      (fun q => q.order_id == req.order_id) = [captureUpdate gp now1 p] := by
    rw [filter_updatePaymentsByOrderId db req.order_id (captureUpdate gp now1) (fun q => rfl),
      hone]
    rfl
  have h2 := processPayment_run env req now2
    (updatePaymentsByOrderId db req.order_id (captureUpdate gp now1)) gp
    (captureUpdate gp now1 p) hv hf hone1
  have hsnd : (processSuccessfulPayment env req now1 db).2
      = updatePaymentsByOrderId db req.order_id (captureUpdate gp now1) := by
    rw [h1]
  refine ⟨?_, rfl, rfl⟩
  rw [hsnd, h2]
  refine congrArg₂ Prod.mk rfl ?_
  exact updatePaymentsByOrderId_comp db req.order_id (captureUpdate gp now2)
    (captureUpdate gp now1) (fun q => rfl) (fun q => rfl)

/-- Witness for the amended C3: two runs at times 100 and 200 on the
concrete created payment. -/
theorem processPayment_second_call_witness :
    processSuccessfulPayment cEnv cReq 200
        (processSuccessfulPayment cEnv cReq 100 [cPayment PaymentStatus.created]).2
      = (ProcessResult.success
           (captureUpdate { id := "pay_1", method := "card" } 200 (cPayment PaymentStatus.created))
           "Payment processed successfully",
         updatePaymentsByOrderId [cPayment PaymentStatus.created] "order_abc123"
           (captureUpdate { id := "pay_1", method := "card" } 200)) :=
  (processPayment_second_call cEnv cReq 100 200 [cPayment PaymentStatus.created]
    { id := "pay_1", method := "card" } (cPayment PaymentStatus.created)
    (by decide) rfl (by decide)).1

/-- Claim C4: the webhook handler compares the HMAC of the serialized
request body under the webhook secret with the signature header before
anything else: a mismatch is rejected with 401 `Invalid webhook signature`
and the payments table is untouched, while a match on `payment.captured`
dispatches the shared `processSuccessfulPayment` algorithm. -/
theorem handleWebhook_signature_gate (env : GatewayEnv) (webhookSecret bodyString : String)
    (eventName : String) (entity : WebhookEntity) (headerSignature : String)
    (now : Int) (db : List Payment) :
    (env.hmac webhookSecret bodyString ≠ headerSignature →
       handleWebhook env webhookSecret bodyString eventName entity headerSignature now db
         = (WebhookOutcome.rejected 401 "Invalid webhook signature", db)) ∧
    (env.hmac webhookSecret bodyString = headerSignature →
     eventName = "payment.captured" →
       (handleWebhook env webhookSecret bodyString eventName entity headerSignature now db).2
         = (processSuccessfulPayment env
             { order_id := entity.order_id, payment_id := entity.id,
               signature := entity.signature } now db).2) := by
  constructor
  · intro h
    simp [handleWebhook, h]
  · intro h he
    rcases hp : processSuccessfulPayment env
      { order_id := entity.order_id, payment_id := entity.id, signature := entity.signature }
      now db with ⟨r, db2⟩
    cases r with
    | success pay msg => simp [handleWebhook, h, he, hp]
    | failure s m => simp [handleWebhook, h, he, hp]

/-- Witness for C4: a concrete mismatched header is rejected with the table
unchanged. -/
theorem handleWebhook_signature_gate_witness :
    handleWebhook cEnv "wsec" "body" "payment.captured"
        { id := "pay_1", order_id := "order_abc123", signature := "s", error_description := "" }
        "bad" 7 [cPayment PaymentStatus.created]
      = (WebhookOutcome.rejected 401 "Invalid webhook signature",
         [cPayment PaymentStatus.created]) :=
  (handleWebhook_signature_gate cEnv "wsec" "body" "payment.captured"
    { id := "pay_1", order_id := "order_abc123", signature := "s", error_description := "" }
    "bad" 7 [cPayment PaymentStatus.created]).1 (by decide)

/-- Claim C9: a refund request against a payment whose status is not
`captured` — an already-`refunded` payment included — is rejected with the
cannot-refund-from-current-status error and the payments table is
unchanged. -/
theorem refundController_rejects_noncaptured (renv : RefundEnv) (paymentId : String)
    (amount : Option Int) (reason : Option String) (now : Int) (db : List Payment)
    (p : Payment) (hfind : findPaymentById db paymentId = some p)
    (hst : p.status ≠ PaymentStatus.captured) :
    refundPaymentController renv paymentId amount reason now db
      = (RefundResult.failure 400
           ("Payment cannot be refunded. Current status: " ++ statusString p.status), db) := by
  simp [refundPaymentController, hfind, hst]

/-- Witness for C9: a second refund attempt against the concrete
already-refunded payment is rejected without mutation. -/
theorem refundController_rejects_noncaptured_witness :
    refundPaymentController cRefundEnv "p1" none none 5 [cPayment PaymentStatus.refunded]
      = (RefundResult.failure 400 "Payment cannot be refunded. Current status: refunded",
         [cPayment PaymentStatus.refunded]) := by
  have h := refundController_rejects_noncaptured cRefundEnv "p1" none none 5
    [cPayment PaymentStatus.refunded] (cPayment PaymentStatus.refunded) (by decide) (by decide)
  rw [h]
  decide

end Passiyo
